import Mathlib

/-!
Verification of the filter-and-derive pipeline of the NitroVolt electrolyzer
dashboard (`streamlit_app.py`).

The pipeline is shallowly embedded over `ℚ`, with `Option ℚ` standing for a
numeric pandas cell that may be NaN (missing).  Dataframes become `List Row`,
column operations become `List.map` / `List.filter`, and the pandas/python
conventions that matter here are modelled explicitly:

* `pd.to_numeric(..., errors='coerce')` already happened upstream: a raw cell
  is an `Option ℚ` from the start;
* `Series.round(n)` is round-half-to-even at `n` decimals, mapped over the
  non-missing cells (`roundTo`);
* `combine_first` is first-non-missing-wins (`combine_first`);
* comparisons against NaN are `False` in pandas, so every boolean mask treats
  a missing operand as excluded (`optLEc`, `optGEc`, `optLE`, `optGE`,
  `optLT`);
* `Series.min` / `Series.max` skip missing cells and give NaN on an all-missing
  column (`seriesMin`, `seriesMax`); python's two-argument `min` / `max` keep
  the first argument when the comparison with the second fails, which makes
  them asymmetric in NaN (`pyMin`, `pyMax`);
* python's `int(...)` truncates toward zero (`pyInt`);
* `Series.nunique` counts the distinct non-missing values (`nunique`).
-/

namespace Electrolyzer

/-- A raw spreadsheet row after `pd.to_numeric(..., errors='coerce')` on the
four numeric columns (lines 20-23 of the source): every non-parseable numeric
cell is already `none`. -/
structure RawRow where
  manufacturer : String
  location : String
  technology : String
  production_rate_max : Option ℚ
  stack_power_min : Option ℚ
  stack_power_max : Option ℚ
  system_power : Option ℚ
deriving DecidableEq, Repr

/-- A processed row of the dataframe `df` after rounding and after the derived
column `average power consumption by stack combined` has been added
(lines 26-32 of the source). -/
structure Row where
  manufacturer : String
  location : String
  technology : String
  production_rate_max : Option ℚ
  stack_power_min : Option ℚ
  stack_power_max : Option ℚ
  system_power : Option ℚ
  stack_power_combined : Option ℚ
deriving DecidableEq, Repr

/-- Round-half-to-even to an integer, the rounding used by
`pandas.Series.round`. -/
def roundHalfEven (q : ℚ) : ℤ :=
  let f := q.floor
  let frac := q - (f : ℚ)
  if frac < 1/2 then f
  else if 1/2 < frac then f + 1
  else if f % 2 = 0 then f else f + 1

/-- `Series.round (n)`: round-half-to-even at `n` decimal places. -/
def roundTo (n : ℕ) (q : ℚ) : ℚ :=
  (roundHalfEven (q * (10 : ℚ) ^ n) : ℚ) / (10 : ℚ) ^ n

/-- `Series.combine_first`: take the first value when it is not missing, else
the second (line 32 of the source). -/
def combine_first (a b : Option ℚ) : Option ℚ :=
  match a with
  | some v => some v
  | none => b

/-- Rounding step, lines 26-29 of the source: production rate to 0 decimals,
the three power columns to 1 decimal.  NaN cells stay NaN. -/
def roundRow (r : RawRow) : RawRow :=
  { r with
    production_rate_max := r.production_rate_max.map (roundTo 0)
    stack_power_min := r.stack_power_min.map (roundTo 1)
    stack_power_max := r.stack_power_max.map (roundTo 1)
    system_power := r.system_power.map (roundTo 1) }

/-- Line 32 of the source: derive
`average power consumption by stack combined` with `combine_first`. -/
def addCombined (r : RawRow) : Row :=
  { manufacturer := r.manufacturer
    location := r.location
    technology := r.technology
    production_rate_max := r.production_rate_max
    stack_power_min := r.stack_power_min
    stack_power_max := r.stack_power_max
    system_power := r.system_power
    stack_power_combined := combine_first r.stack_power_min r.stack_power_max }

/-- The per-row processing of lines 26-32: round, then derive the combined
stack column. -/
def procRow (r : RawRow) : Row :=
  addCombined (roundRow r)

/-- The dataframe `df` right after lines 20-32 (all rows, rounded, with the
combined column). -/
def df_base (rows : List RawRow) : List Row :=
  rows.map procRow

/-- `value ≤ c` as a pandas boolean mask: `False` when the cell is missing. -/
def optLEc (v : Option ℚ) (c : ℚ) : Bool :=
  match v with
  | some x => decide (x ≤ c)
  | none => false

/-- `value ≥ c` as a pandas boolean mask: `False` when the cell is missing. -/
def optGEc (v : Option ℚ) (c : ℚ) : Bool :=
  match v with
  | some x => decide (c ≤ x)
  | none => false

/-- `value ≥ bound` where the bound itself may be NaN (pandas comparison with
NaN is `False`). -/
def optGE (v bound : Option ℚ) : Bool :=
  match v, bound with
  | some x, some b => decide (b ≤ x)
  | _, _ => false

/-- `value ≤ bound` where the bound itself may be NaN. -/
def optLE (v bound : Option ℚ) : Bool :=
  match v, bound with
  | some x, some b => decide (x ≤ b)
  | _, _ => false

/-- Python `a < b` on two possibly-NaN floats: `False` when either side is
NaN. -/
def optLT (a b : Option ℚ) : Bool :=
  match a, b with
  | some x, some y => decide (x < y)
  | _, _ => false

/-- `Series.min`: minimum of the non-missing cells, NaN when there are
none. -/
def seriesMin (vals : List (Option ℚ)) : Option ℚ :=
  match vals.filterMap id with
  | [] => none
  | x :: xs => some (xs.foldl min x)

/-- `Series.max`: maximum of the non-missing cells, NaN when there are
none. -/
def seriesMax (vals : List (Option ℚ)) : Option ℚ :=
  match vals.filterMap id with
  | [] => none
  | x :: xs => some (xs.foldl max x)

/-- Python's builtin `min a b` (`b if b < a else a`): when an operand is NaN
the comparison is `False`, so `min NaN y = NaN` but `min x NaN = x`. -/
def pyMin (a b : Option ℚ) : Option ℚ :=
  match a, b with
  | some x, some y => some (if y < x then y else x)
  | some x, none => some x
  | none, _ => none

/-- Python's builtin `max a b` (`b if b > a else a`): `max NaN y = NaN` but
`max x NaN = x`. -/
def pyMax (a b : Option ℚ) : Option ℚ :=
  match a, b with
  | some x, some y => some (if x < y then y else x)
  | some x, none => some x
  | none, _ => none

/-- Python `int(...)` on a float: truncation toward zero. -/
def pyInt (q : ℚ) : ℤ :=
  if q < 0 then -((-q).floor) else q.floor

/-- `Series.nunique`: number of distinct non-missing values. -/
def nunique (vals : List (Option ℚ)) : ℕ :=
  ((vals.filterMap id).dedup).length

/-- `Series.isin(sel)` for a string column. -/
def isin (sel : List String) (x : String) : Bool :=
  sel.contains x

/-- Lines 35-38 of the source: drop rows whose production rate is missing,
then keep only rows with production rate ≤ 1200.  This happens before any
user-adjustable filter. -/
def df_filtered_pre (rows : List RawRow) : List Row :=
  ((df_base rows).filter (fun r => r.production_rate_max.isSome)).filter
    (fun r => optLEc r.production_rate_max 1200)

/-- Lines 51-52 of the source: the manufacturer/location mask, a single
conjunction of two `isin` masks. -/
def applyUserFilters (cos locs : List String) (l : List Row) : List Row :=
  l.filter (fun r => isin cos r.manufacturer && isin locs r.location)

/-- The manufacturer mask alone. -/
def filterByCompanies (cos : List String) (l : List Row) : List Row :=
  l.filter (fun r => isin cos r.manufacturer)

/-- The location mask alone. -/
def filterByLocations (locs : List String) (l : List Row) : List Row :=
  l.filter (fun r => isin locs r.location)

/-- `df_filtered` right after line 52: ingestion filters plus the
manufacturer/location selection. -/
def df_filtered_sel (rows : List RawRow) (cos locs : List String) : List Row :=
  applyUserFilters cos locs (df_filtered_pre rows)

/-- Line 54 of the source: the explicit empty-result signal
("No data available for the selected filters"). -/
def noDataMessage (rows : List RawRow) (cos locs : List String) : Bool :=
  (df_filtered_sel rows cos locs).isEmpty

/-- Line 62 of the source: the guard deciding whether the range sliders are
offered.  Note that `unique_stack` and `unique_system` are counted on the
FULL dataframe `df` (line 58 uses `df`, not `df_filtered`). -/
def sliderCond (rows : List RawRow) (cos : List String) : Bool :=
  decide (cos.length > 1)
    || decide (nunique ((df_base rows).map (fun r => r.stack_power_combined)) > 1)
    || decide (nunique ((df_base rows).map (fun r => r.system_power)) > 1)

/-- Lines 65-67 of the source: the production slider bounds,
`int(min)` / `int(max)` of the (already rounded) production column of
`df_filtered`. -/
def prodSliderBounds (rows : List RawRow) (cos locs : List String) :
    Option ℤ × Option ℤ :=
  ((seriesMin ((df_filtered_sel rows cos locs).map (fun r => r.production_rate_max))).map pyInt,
    (seriesMax ((df_filtered_sel rows cos locs).map (fun r => r.production_rate_max))).map pyInt)

/-- `df_filtered` after line 70: when the slider guard holds (and the
selection is non-empty, line 54), the production-range mask for the slider
value `pick` is applied; otherwise `df_filtered` is left as it was. -/
def df_filtered_final (rows : List RawRow) (cos locs : List String)
    (pick : ℤ × ℤ) : List Row :=
  if (df_filtered_sel rows cos locs).isEmpty then df_filtered_sel rows cos locs
  else if sliderCond rows cos then
    (df_filtered_sel rows cos locs).filter (fun r =>
      optGEc r.production_rate_max (pick.1 : ℚ)
        && optLEc r.production_rate_max (pick.2 : ℚ))
  else df_filtered_sel rows cos locs

/-- Line 73 of the source: `power_min`, the python `min` of the two column
minima over the production-filtered `df_filtered`. -/
def power_min_b (l : List Row) : Option ℚ :=
  pyMin (seriesMin (l.map (fun r => r.stack_power_combined)))
    (seriesMin (l.map (fun r => r.system_power)))

/-- Line 74 of the source: `power_max`. -/
def power_max_b (l : List Row) : Option ℚ :=
  pyMax (seriesMax (l.map (fun r => r.stack_power_combined)))
    (seriesMax (l.map (fun r => r.system_power)))

/-- Line 76 of the source: the power slider is solicited only on the slider
branch and only when `power_min < power_max` (a NaN bound never compares
true). -/
def powerSliderShown (rows : List RawRow) (cos locs : List String)
    (pick : ℤ × ℤ) : Bool :=
  !(df_filtered_sel rows cos locs).isEmpty
    && sliderCond rows cos
    && optLT (power_min_b (df_filtered_final rows cos locs pick))
      (power_max_b (df_filtered_final rows cos locs pick))

/-- The power bounds in force after lines 76-82: the user's slider pair
`ppick` when the power slider was shown, otherwise the data bounds
(possibly NaN) computed at lines 73-74. -/
def powerBoundsUsed (rows : List RawRow) (cos locs : List String)
    (pick : ℤ × ℤ) (ppick : ℚ × ℚ) : Option ℚ × Option ℚ :=
  if powerSliderShown rows cos locs pick then (some ppick.1, some ppick.2)
  else (power_min_b (df_filtered_final rows cos locs pick),
    power_max_b (df_filtered_final rows cos locs pick))

/-- Lines 83-84 (and the fallback at line 88) of the source:
`df_filtered_stack`.  On the slider branch the stack-combined column is
masked against the power bounds; on the fallback branch it is `df_filtered`
unchanged.  (When the selection is empty the python variable is never
assigned; it is also never read, so we model it as the empty list.) -/
def df_filtered_stack (rows : List RawRow) (cos locs : List String)
    (pick : ℤ × ℤ) (ppick : ℚ × ℚ) : List Row :=
  if (df_filtered_sel rows cos locs).isEmpty then []
  else if sliderCond rows cos then
    (df_filtered_final rows cos locs pick).filter (fun r =>
      optGE r.stack_power_combined (powerBoundsUsed rows cos locs pick ppick).1
        && optLE r.stack_power_combined (powerBoundsUsed rows cos locs pick ppick).2)
  else df_filtered_sel rows cos locs

/-- Lines 85-86 (and the fallback at line 89) of the source:
`df_filtered_system`. -/
def df_filtered_system (rows : List RawRow) (cos locs : List String)
    (pick : ℤ × ℤ) (ppick : ℚ × ℚ) : List Row :=
  if (df_filtered_sel rows cos locs).isEmpty then []
  else if sliderCond rows cos then
    (df_filtered_final rows cos locs pick).filter (fun r =>
      optGE r.system_power (powerBoundsUsed rows cos locs pick ppick).1
        && optLE r.system_power (powerBoundsUsed rows cos locs pick ppick).2)
  else df_filtered_sel rows cos locs

/-- Lines 100-101 of the source: rows of `df_filtered` with a stack value but
no system value.  Note the source builds all three partitions from
`df_filtered`, not from `df_filtered_stack` / `df_filtered_system`. -/
def df_with_stack_only (rows : List RawRow) (cos locs : List String)
    (pick : ℤ × ℤ) : List Row :=
  (df_filtered_final rows cos locs pick).filter (fun r =>
    r.stack_power_combined.isSome && r.system_power.isNone)

/-- Lines 103-104 of the source: rows with a system value but no stack
value. -/
def df_with_system_only (rows : List RawRow) (cos locs : List String)
    (pick : ℤ × ℤ) : List Row :=
  (df_filtered_final rows cos locs pick).filter (fun r =>
    r.stack_power_combined.isNone && r.system_power.isSome)

/-- Lines 106-107 of the source: rows with both values. -/
def df_with_both (rows : List RawRow) (cos locs : List String)
    (pick : ℤ × ℤ) : List Row :=
  (df_filtered_final rows cos locs pick).filter (fun r =>
    r.stack_power_combined.isSome && r.system_power.isSome)

/-- Lines 112-113 of the source: `net_prod_max_all`, the python `max` of the
production maximum of `df_filtered` with itself. -/
def net_prod_max_all (rows : List RawRow) (cos locs : List String)
    (pick : ℤ × ℤ) : Option ℚ :=
  pyMax (seriesMax ((df_filtered_final rows cos locs pick).map (fun r => r.production_rate_max)))
    (seriesMax ((df_filtered_final rows cos locs pick).map (fun r => r.production_rate_max)))

/-- Lines 116-117 of the source: `power_max_all`, the python `max` of the two
power-column maxima of `df_filtered`. -/
def power_max_all (rows : List RawRow) (cos locs : List String)
    (pick : ℤ × ℤ) : Option ℚ :=
  pyMax (seriesMax ((df_filtered_final rows cos locs pick).map (fun r => r.stack_power_combined)))
    (seriesMax ((df_filtered_final rows cos locs pick).map (fun r => r.system_power)))

/-- The point series handed to the stack scatter plot (line 122 of the
source): `pd.concat([df_with_stack_only, df_with_both])`. -/
def fig_stack_data (rows : List RawRow) (cos locs : List String)
    (pick : ℤ × ℤ) : List Row :=
  df_with_stack_only rows cos locs pick ++ df_with_both rows cos locs pick

/-- The point series handed to the system scatter plot (line 152 of the
source): `pd.concat([df_with_system_only, df_with_both])`. -/
def fig_system_data (rows : List RawRow) (cos locs : List String)
    (pick : ℤ × ℤ) : List Row :=
  df_with_system_only rows cos locs pick ++ df_with_both rows cos locs pick

/-- What a rendered figure hands to the plotting collaborator: the point
series and the `[lo, hi]` axis-range hints (`x` then `y`). -/
structure Fig where
  data : List Row
  xRange : ℚ × Option ℚ
  yRange : ℚ × Option ℚ
deriving DecidableEq, Repr

/-- Lines 120-138 of the source: the stack figure is rendered only when its
series is non-empty; its x-range is `[-10, net_prod_max_all]` and its
y-range is `[2.9, power_max_all]`. -/
def fig_stack (rows : List RawRow) (cos locs : List String)
    (pick : ℤ × ℤ) : Option Fig :=
  if !(df_with_stack_only rows cos locs pick).isEmpty
      || !(df_with_both rows cos locs pick).isEmpty then
    some ⟨fig_stack_data rows cos locs pick,
      ((-10 : ℚ), net_prod_max_all rows cos locs pick),
      ((29/10 : ℚ), power_max_all rows cos locs pick)⟩
  else none

/-- Lines 150-168 of the source: the system figure, same guard and the same
axis ranges. -/
def fig_system (rows : List RawRow) (cos locs : List String)
    (pick : ℤ × ℤ) : Option Fig :=
  if !(df_with_system_only rows cos locs pick).isEmpty
      || !(df_with_both rows cos locs pick).isEmpty then
    some ⟨fig_system_data rows cos locs pick,
      ((-10 : ℚ), net_prod_max_all rows cos locs pick),
      ((29/10 : ℚ), power_max_all rows cos locs pick)⟩
  else none

/-! ### Specification-side recomputations used to compare against the pipeline

These definitions recompute, directly over the raw rows, the quantities the
pipeline computes over processed rows; they exist so that theorems can relate
the two (e.g. that slider bounds are bounds over the *rounded* values). -/

/-- The production cell after rounding to 0 decimals, straight from a raw
row. -/
def roundedProd (r : RawRow) : Option ℚ :=
  r.production_rate_max.map (roundTo 0)

/-- The combined stack cell (first-non-missing-wins over the two rounded
stack cells), straight from a raw row. -/
def roundedStackCombined (r : RawRow) : Option ℚ :=
  combine_first (r.stack_power_min.map (roundTo 1)) (r.stack_power_max.map (roundTo 1))

/-- The system cell after rounding to 1 decimal, straight from a raw row. -/
def roundedSystem (r : RawRow) : Option ℚ :=
  r.system_power.map (roundTo 1)

/-- The raw rows that survive ingestion and the manufacturer/location
selection, decided directly on the raw cells after rounding. -/
def rawSurvivorsSel (rows : List RawRow) (cos locs : List String) : List RawRow :=
  ((rows.filter (fun r => (roundedProd r).isSome)).filter
      (fun r => optLEc (roundedProd r) 1200)).filter
    (fun r => isin cos r.manufacturer && isin locs r.location)

/-- The raw rows that survive all filters up to the production-range slider,
decided directly on the raw cells after rounding. -/
def rawSurvivorsFinal (rows : List RawRow) (cos locs : List String)
    (pick : ℤ × ℤ) : List RawRow :=
  if (rawSurvivorsSel rows cos locs).isEmpty then rawSurvivorsSel rows cos locs
  else if sliderCond rows cos then
    (rawSurvivorsSel rows cos locs).filter (fun r =>
      optGEc (roundedProd r) (pick.1 : ℚ) && optLEc (roundedProd r) (pick.2 : ℚ))
  else rawSurvivorsSel rows cos locs

/-- The production-slider bounds recomputed as bounds over the rounded raw
values. -/
def specProdSliderBounds (rows : List RawRow) (cos locs : List String) :
    Option ℤ × Option ℤ :=
  ((seriesMin ((rawSurvivorsSel rows cos locs).map roundedProd)).map pyInt,
    (seriesMax ((rawSurvivorsSel rows cos locs).map roundedProd)).map pyInt)

/-- The power-slider bounds recomputed as bounds over the rounded raw
values. -/
def specPowerBounds (rows : List RawRow) (cos locs : List String)
    (pick : ℤ × ℤ) : Option ℚ × Option ℚ :=
  (pyMin (seriesMin ((rawSurvivorsFinal rows cos locs pick).map roundedStackCombined))
      (seriesMin ((rawSurvivorsFinal rows cos locs pick).map roundedSystem)),
    pyMax (seriesMax ((rawSurvivorsFinal rows cos locs pick).map roundedStackCombined))
      (seriesMax ((rawSurvivorsFinal rows cos locs pick).map roundedSystem)))

/-! ### Concrete rows used by witnesses and counterexamples -/

/-- The spec's own example row: `prod=800, stack_min=4.2, stack_max=null,
system=5.0`. -/
def rowC2 : RawRow := ⟨"A", "DK", "PEM", some 800, some (21/5), none, some 5⟩

/-- A row whose raw production rate is 1200.4: above 1200, but rounding to 0
decimals gives 1200. -/
def rowC3 : RawRow := ⟨"A", "DK", "PEM", some (6002/5), some 4, none, none⟩

/-- An ordinary retained row. -/
def rowC3ok : RawRow := ⟨"A", "DK", "PEM", some 800, some 4, none, none⟩

/-- The spec's scenario row with `prod=1500`. -/
def rowC3drop : RawRow := ⟨"A", "DK", "PEM", some 1500, some 4, none, none⟩

/-- A row used by the empty-selection scenario. -/
def rowC6 : RawRow := ⟨"A", "DK", "PEM", some 100, some 4, none, some 5⟩

/-! ### Helper lemmas about the pipeline -/

theorem mem_base_combined {rows : List RawRow} {r : Row} (h : r ∈ df_base rows) :
    r.stack_power_combined = combine_first r.stack_power_min r.stack_power_max := by
  rcases List.mem_map.mp h with ⟨a, _, rfl⟩
  rfl

theorem mem_base_of_mem_pre {rows : List RawRow} {r : Row}
    (h : r ∈ df_filtered_pre rows) : r ∈ df_base rows := by
  unfold df_filtered_pre at h
  exact (List.mem_filter.mp (List.mem_filter.mp h).1).1

theorem mem_pre_of_mem_sel {rows : List RawRow} {cos locs : List String} {r : Row}
    (h : r ∈ df_filtered_sel rows cos locs) : r ∈ df_filtered_pre rows := by
  unfold df_filtered_sel applyUserFilters at h
  exact (List.mem_filter.mp h).1

theorem mem_sel_of_mem_final {rows : List RawRow} {cos locs : List String}
    {pick : ℤ × ℤ} {r : Row} (h : r ∈ df_filtered_final rows cos locs pick) :
    r ∈ df_filtered_sel rows cos locs := by
  unfold df_filtered_final at h
  split at h
  · exact h
  · split at h
    · exact (List.mem_filter.mp h).1
    · exact h

theorem prod_bounded_of_mem_pre {rows : List RawRow} {r : Row}
    (h : r ∈ df_filtered_pre rows) :
    ∃ v, r.production_rate_max = some v ∧ v ≤ 1200 := by
  unfold df_filtered_pre at h
  have h2 := (List.mem_filter.mp h).2
  cases hv : r.production_rate_max with
  | none => rw [hv] at h2; simp [optLEc] at h2
  | some v =>
    refine ⟨v, rfl, ?_⟩
    rw [hv] at h2
    simpa [optLEc] using h2

theorem filter_swap_and {α : Type} (l : List α) (p q : α → Bool) :
    l.filter (fun a => p a && q a) = l.filter (fun a => q a && p a) := by
  apply List.filter_congr
  intro a _
  exact Bool.and_comm (p a) (q a)

theorem isin_inter (A B : List String) (x : String) :
    isin (A ∩ B) x = (isin A x && isin B x) := by
  by_cases hA : x ∈ A <;> by_cases hB : x ∈ B <;>
    simp [isin, List.contains, List.elem_eq_mem, List.mem_inter_iff, hA, hB]

/-! ### Claim theorems

Concrete evaluations of the pipeline go through `decide`; the arithmetic of
`ℚ` is made transparent for that purpose. -/

section ClaimTheorems

attribute [local semireducible] Rat.mul Rat.inv Rat.add Rat.sub

/-- C2: for every row of the processed dataframe, the derived
`stack_power_combined` equals `stack_power_min` when that is not missing,
else `stack_power_max` (first-non-missing-wins), and it is missing exactly
when both stack cells are missing. -/
theorem c2_combine_first_law (rows : List RawRow) (r : Row)
    (h : r ∈ df_base rows) :
    (r.stack_power_combined
        = if r.stack_power_min.isSome then r.stack_power_min
          else r.stack_power_max)
    ∧ (r.stack_power_combined = none
        ↔ (r.stack_power_min = none ∧ r.stack_power_max = none)) := by
  have hc := mem_base_combined h
  constructor
  · rw [hc]
    cases hmin : r.stack_power_min <;> simp [combine_first]
  · rw [hc]
    cases hmin : r.stack_power_min <;> cases hmax : r.stack_power_max <;>
      simp [combine_first]

theorem c2_combine_first_law_witness :
    ((procRow rowC2).stack_power_combined
        = if (procRow rowC2).stack_power_min.isSome then (procRow rowC2).stack_power_min
          else (procRow rowC2).stack_power_max)
    ∧ ((procRow rowC2).stack_power_combined = none
        ↔ ((procRow rowC2).stack_power_min = none ∧ (procRow rowC2).stack_power_max = none)) :=
  c2_combine_first_law [rowC2] (procRow rowC2) (List.mem_singleton.mpr rfl)

/-- C3 counterexample: an input row with raw `production_rate_max = 1200.4`,
strictly greater than 1200, is NOT dropped: rounding to 0 decimals happens
first (line 26 of the source), turns it into 1200, and the ceiling filter at
line 38 keeps it — even under fully permissive user filters. -/
theorem c3_counterexample :
    rowC3.production_rate_max = some (6002/5)
    ∧ (1200 : ℚ) < 6002/5
    ∧ procRow rowC3 ∈ df_filtered_pre [rowC3]
    ∧ procRow rowC3 ∈ df_filtered_final [rowC3] ["A"] ["DK"] (1200, 1200) := by
  refine ⟨rfl, by norm_num, by decide, by decide⟩

/-- C3 as amended: every retained row (after ingestion, and in every later
filtered view) has a non-missing production rate at most 1200 — but the
bound concerns the stored, rounded value: an input row is dropped
unconditionally precisely when its production rate is missing or its value
rounded to 0 decimals exceeds 1200 (so 1500 is dropped, while 1200.4 is
kept as 1200). -/
theorem c3_rounded_ceiling (rows : List RawRow) (cos locs : List String)
    (pick : ℤ × ℤ) (r : Row) (raw : RawRow) :
    (r ∈ df_filtered_pre rows → ∃ v, r.production_rate_max = some v ∧ v ≤ 1200)
    ∧ (r ∈ df_filtered_final rows cos locs pick →
        ∃ v, r.production_rate_max = some v ∧ v ≤ 1200)
    ∧ ((raw.production_rate_max.map (roundTo 0) = none
          ∨ ∃ w, raw.production_rate_max.map (roundTo 0) = some w ∧ 1200 < w) →
        procRow raw ∉ df_filtered_final rows cos locs pick) := by
  refine ⟨fun h => prod_bounded_of_mem_pre h,
    fun h => prod_bounded_of_mem_pre (mem_pre_of_mem_sel (mem_sel_of_mem_final h)),
    ?_⟩
  intro hbad hmem
  obtain ⟨v, hv, hle⟩ :=
    prod_bounded_of_mem_pre (mem_pre_of_mem_sel (mem_sel_of_mem_final hmem))
  have hp : (procRow raw).production_rate_max = raw.production_rate_max.map (roundTo 0) := rfl
  rw [hp] at hv
  rcases hbad with hn | ⟨w, hw, hgt⟩
  · rw [hn] at hv
    exact Option.noConfusion hv
  · rw [hw] at hv
    have : w = v := Option.some.inj hv
    subst this
    exact absurd hle (not_le.mpr hgt)

theorem c3_rounded_ceiling_witness :
    (∃ v, (procRow rowC3ok).production_rate_max = some v ∧ v ≤ 1200)
    ∧ procRow rowC3drop ∉ df_filtered_final [rowC3ok, rowC3drop] ["A"] ["DK"] (0, 1500) := by
  constructor
  · exact (c3_rounded_ceiling [rowC3ok] ["A"] ["DK"] (0, 0) (procRow rowC3ok) rowC3ok).1
      (by decide)
  · exact (c3_rounded_ceiling [rowC3ok, rowC3drop] ["A"] ["DK"] (0, 1500)
      (procRow rowC3ok) rowC3drop).2.2 (Or.inr ⟨1500, by decide, by norm_num⟩)

/-- C6: a manufacturer/location selection that empties the filtered set is
not an error: the pipeline emits the explicit "no data" signal, every
downstream view is empty, and neither figure is rendered — the render
completes with a value rather than an exception (all pipeline functions are
total). -/
theorem c6_empty_selection_no_crash (rows : List RawRow) (cos locs : List String)
    (pick : ℤ × ℤ) (h : df_filtered_sel rows cos locs = []) :
    noDataMessage rows cos locs = true
    ∧ df_filtered_final rows cos locs pick = []
    ∧ fig_stack rows cos locs pick = none
    ∧ fig_system rows cos locs pick = none := by
  have hfin : df_filtered_final rows cos locs pick = [] := by
    unfold df_filtered_final
    rw [h]
    simp
  refine ⟨by simp [noDataMessage, h], hfin, ?_, ?_⟩
  · simp [fig_stack, df_with_stack_only, df_with_both, hfin]
  · simp [fig_system, df_with_system_only, df_with_both, hfin]

theorem c6_empty_selection_no_crash_witness :
    noDataMessage [rowC6] [] ["DK"] = true
    ∧ df_filtered_final [rowC6] [] ["DK"] (0, 0) = []
    ∧ fig_stack [rowC6] [] ["DK"] (0, 0) = none
    ∧ fig_system [rowC6] [] ["DK"] (0, 0) = none :=
  c6_empty_selection_no_crash [rowC6] [] ["DK"] (0, 0) (by decide)

/-- C9: filtering is a pure projection and composes: applying the
manufacturer mask and then the location mask equals the single conjunctive
mask of line 51-52; two same-field masks compose into the mask of the
intersected selection; arbitrary boolean masks compose into their
conjunction; and filtering only ever selects a sublist — the ingested list
itself is never modified (all operations are pure). -/
theorem c9_filter_pure_projection (S : List Row) (cos locs A B : List String)
    (p q : Row → Bool) :
    ((S.filter p).filter q = S.filter (fun r => p r && q r))
    ∧ filterByLocations locs (filterByCompanies cos S) = applyUserFilters cos locs S
    ∧ filterByCompanies B (filterByCompanies A S) = filterByCompanies (A ∩ B) S
    ∧ List.Sublist (applyUserFilters cos locs S) S := by
  refine ⟨?_, ?_, ?_, ?_⟩
  · rw [List.filter_filter]
    exact filter_swap_and S q p
  · unfold filterByLocations filterByCompanies applyUserFilters
    rw [List.filter_filter]
    exact filter_swap_and S (fun r => isin locs r.location) (fun r => isin cos r.manufacturer)
  · unfold filterByCompanies
    rw [List.filter_filter]
    apply List.filter_congr
    intro r _
    rw [isin_inter]
    exact Bool.and_comm (isin B r.manufacturer) (isin A r.manufacturer)
  · unfold applyUserFilters
    exact List.filter_sublist S

/-- Membership in the stack-plot series forces membership in `df_filtered`
and a present stack value. -/
theorem mem_fig_stack_data {rows : List RawRow} {cos locs : List String}
    {pick : ℤ × ℤ} {r : Row} (h : r ∈ fig_stack_data rows cos locs pick) :
    r ∈ df_filtered_final rows cos locs pick ∧ r.stack_power_combined.isSome = true := by
  unfold fig_stack_data df_with_stack_only df_with_both at h
  rcases List.mem_append.mp h with h' | h' <;>
  · obtain ⟨hm, hb⟩ := List.mem_filter.mp h'
    simp only [Bool.and_eq_true] at hb
    exact ⟨hm, hb.1⟩

/-- Membership in the system-plot series forces membership in `df_filtered`
and a present system value. -/
theorem mem_fig_system_data {rows : List RawRow} {cos locs : List String}
    {pick : ℤ × ℤ} {r : Row} (h : r ∈ fig_system_data rows cos locs pick) :
    r ∈ df_filtered_final rows cos locs pick ∧ r.system_power.isSome = true := by
  unfold fig_system_data df_with_system_only df_with_both at h
  rcases List.mem_append.mp h with h' | h'
  · obtain ⟨hm, hb⟩ := List.mem_filter.mp h'
    simp only [Bool.and_eq_true] at hb
    exact ⟨hm, hb.2⟩
  · obtain ⟨hm, hb⟩ := List.mem_filter.mp h'
    simp only [Bool.and_eq_true] at hb
    exact ⟨hm, hb.2⟩

/-- A filtered row with both measurements lands in both plot series. -/
theorem mem_fig_data_of_both {rows : List RawRow} {cos locs : List String}
    {pick : ℤ × ℤ} {r : Row} (h : r ∈ df_filtered_final rows cos locs pick)
    (hs : r.stack_power_combined.isSome = true) (hy : r.system_power.isSome = true) :
    r ∈ fig_stack_data rows cos locs pick ∧ r ∈ fig_system_data rows cos locs pick := by
  have hb : r ∈ df_with_both rows cos locs pick := by
    unfold df_with_both
    exact List.mem_filter.mpr ⟨h, by simp [hs, hy]⟩
  exact ⟨List.mem_append.mpr (Or.inr hb), List.mem_append.mpr (Or.inr hb)⟩

/-- A filtered row with only the system measurement lands in the system-only
partition, hence in the system plot series. -/
theorem mem_fig_system_of_only {rows : List RawRow} {cos locs : List String}
    {pick : ℤ × ℤ} {r : Row} (h : r ∈ df_filtered_final rows cos locs pick)
    (hs : r.stack_power_combined = none) (hy : r.system_power.isSome = true) :
    r ∈ fig_system_data rows cos locs pick := by
  have ho : r ∈ df_with_system_only rows cos locs pick := by
    unfold df_with_system_only
    exact List.mem_filter.mpr ⟨h, by simp [hs, hy]⟩
  exact List.mem_append.mpr (Or.inl ho)

/-- C4: partitioning is exhaustive and non-lossy — every filtered row with
both measurements appears in both plot series, while a row whose stack min
and max are both missing but whose system value is present appears in the
system series only, never in the stack series. -/
theorem c4_partition_exhaustive (rows : List RawRow) (cos locs : List String)
    (pick : ℤ × ℤ) (r : Row) (h : r ∈ df_filtered_final rows cos locs pick) :
    (r.stack_power_combined.isSome = true → r.system_power.isSome = true →
      r ∈ fig_stack_data rows cos locs pick ∧ r ∈ fig_system_data rows cos locs pick)
    ∧ (r.stack_power_min = none → r.stack_power_max = none →
        r.system_power.isSome = true →
        r ∈ fig_system_data rows cos locs pick
          ∧ r ∉ fig_stack_data rows cos locs pick) := by
  constructor
  · intro hs hy
    exact mem_fig_data_of_both h hs hy
  · intro hmin hmax hy
    have hbase : r ∈ df_base rows :=
      mem_base_of_mem_pre (mem_pre_of_mem_sel (mem_sel_of_mem_final h))
    have hcomb : r.stack_power_combined = none := by
      rw [mem_base_combined hbase, hmin]
      simpa [combine_first] using hmax
    refine ⟨mem_fig_system_of_only h hcomb hy, ?_⟩
    intro habs
    have hsome := (mem_fig_stack_data habs).2
    rw [hcomb] at hsome
    simp at hsome

/-- A row with both measurements present, one with only the system one. -/
def rowC4a : RawRow := ⟨"A", "DK", "PEM", some 800, some (21/5), none, some 5⟩

/-- The spec scenario row `stack_min=null, stack_max=null, system=5.0`. -/
def rowC4b : RawRow := ⟨"A", "DK", "PEM", some 700, none, none, some 5⟩

theorem c4_partition_exhaustive_witness :
    (procRow rowC4a ∈ fig_stack_data [rowC4a, rowC4b] ["A"] ["DK"] (0, 0)
      ∧ procRow rowC4a ∈ fig_system_data [rowC4a, rowC4b] ["A"] ["DK"] (0, 0))
    ∧ (procRow rowC4b ∈ fig_system_data [rowC4a, rowC4b] ["A"] ["DK"] (0, 0)
      ∧ procRow rowC4b ∉ fig_stack_data [rowC4a, rowC4b] ["A"] ["DK"] (0, 0)) := by
  constructor
  · exact (c4_partition_exhaustive [rowC4a, rowC4b] ["A"] ["DK"] (0, 0)
      (procRow rowC4a) (by decide)).1 (by decide) (by decide)
  · exact (c4_partition_exhaustive [rowC4a, rowC4b] ["A"] ["DK"] (0, 0)
      (procRow rowC4b) (by decide)).2 (by decide) (by decide) (by decide)

/-- C10: every point handed to the stack plot has a present
`stack_power_combined`; every point handed to the system plot has a present
`system_power`; a filtered row missing both measurements is handed to
neither plot. -/
theorem c10_plotted_points_have_y (rows : List RawRow) (cos locs : List String)
    (pick : ℤ × ℤ) (r : Row) :
    (r ∈ fig_stack_data rows cos locs pick → r.stack_power_combined.isSome = true)
    ∧ (r ∈ fig_system_data rows cos locs pick → r.system_power.isSome = true)
    ∧ (r.stack_power_combined = none → r.system_power = none →
        r ∉ fig_stack_data rows cos locs pick
          ∧ r ∉ fig_system_data rows cos locs pick) := by
  refine ⟨fun h => (mem_fig_stack_data h).2, fun h => (mem_fig_system_data h).2, ?_⟩
  intro hs hy
  constructor
  · intro h
    have hsome := (mem_fig_stack_data h).2
    rw [hs] at hsome
    simp at hsome
  · intro h
    have hsome := (mem_fig_system_data h).2
    rw [hy] at hsome
    simp at hsome

/-- An ordinary plotted row. -/
def rowC10a : RawRow := ⟨"A", "DK", "PEM", some 800, some 4, none, some 5⟩

/-- A row with both power measurements missing. -/
def rowC10b : RawRow := ⟨"A", "DK", "PEM", some 700, none, none, none⟩

theorem c10_plotted_points_have_y_witness :
    (procRow rowC10a).stack_power_combined.isSome = true
    ∧ (procRow rowC10b ∉ fig_stack_data [rowC10a, rowC10b] ["A"] ["DK"] (0, 0)
      ∧ procRow rowC10b ∉ fig_system_data [rowC10a, rowC10b] ["A"] ["DK"] (0, 0)) := by
  constructor
  · exact (c10_plotted_points_have_y [rowC10a, rowC10b] ["A"] ["DK"] (0, 0)
      (procRow rowC10a)).1 (by decide)
  · exact (c10_plotted_points_have_y [rowC10a, rowC10b] ["A"] ["DK"] (0, 0)
      (procRow rowC10b)).2.2 (by decide) (by decide)

/-- A row inside the narrowed power range. -/
def rowC1a : RawRow := ⟨"A", "DK", "PEM", some 100, some 4, none, none⟩

/-- A row outside the narrowed power range. -/
def rowC1b : RawRow := ⟨"B", "DK", "PEM", some 200, some 9, none, none⟩

/-- C1: the power-range interval is computed (lines 76-86 build
`df_filtered_stack` and `df_filtered_system` from it) but the plotted series
are built from `df_filtered` instead (lines 100-122), so the interval never
restricts them.  Evaluated at the failing input: the user narrows the power
slider to `[4, 5]`, the row with `stack_power_combined = 9` lies outside
that interval and is excluded from `df_filtered_stack`, yet it is handed to
the stack plot all the same. -/
theorem c1_power_range_unused_in_plot :
    powerSliderShown [rowC1a, rowC1b] ["A", "B"] ["DK"] (100, 200) = true
    ∧ powerBoundsUsed [rowC1a, rowC1b] ["A", "B"] ["DK"] (100, 200) (4, 5) = (some 4, some 5)
    ∧ (procRow rowC1b).stack_power_combined = some 9
    ∧ optLE (procRow rowC1b).stack_power_combined (some 5) = false
    ∧ procRow rowC1b ∉ df_filtered_stack [rowC1a, rowC1b] ["A", "B"] ["DK"] (100, 200) (4, 5)
    ∧ procRow rowC1b ∈ fig_stack_data [rowC1a, rowC1b] ["A", "B"] ["DK"] (100, 200) := by
  decide

/-- A selected row whose power measurements are all missing (empty numeric
domain). -/
def rowC5a : RawRow := ⟨"A", "DK", "PEM", some 100, none, none, none⟩

/-- An unselected row that still makes the full dataframe have more than one
distinct power value. -/
def rowC5b : RawRow := ⟨"B", "DK", "PEM", some 200, some 4, none, some 6⟩

/-- Another unselected row. -/
def rowC5c : RawRow := ⟨"B", "DK", "PEM", some 300, some 7, none, some 8⟩

/-- C5: selecting the single manufacturer "A", whose rows have an empty
power domain, does skip the power-range control — but the slider guard at
line 62 counts distinct power values on the FULL dataframe, so the slider
branch is still taken and the degenerate power mask (whose NaN bounds
compare false against everything) is still applied: both series come out
empty instead of defaulting to the full filtered set. -/
theorem c5_degenerate_domain_still_filters :
    powerSliderShown [rowC5a, rowC5b, rowC5c] ["A"] ["DK"] (100, 100) = false
    ∧ df_filtered_final [rowC5a, rowC5b, rowC5c] ["A"] ["DK"] (100, 100) = [procRow rowC5a]
    ∧ df_filtered_stack [rowC5a, rowC5b, rowC5c] ["A"] ["DK"] (100, 100) (0, 0) = []
    ∧ df_filtered_system [rowC5a, rowC5b, rowC5c] ["A"] ["DK"] (100, 100) (0, 0) = []
    ∧ df_filtered_stack [rowC5a, rowC5b, rowC5c] ["A"] ["DK"] (100, 100) (0, 0)
        ≠ df_filtered_final [rowC5a, rowC5b, rowC5c] ["A"] ["DK"] (100, 100) := by
  decide

theorem foldl_max_init_le (xs : List ℚ) (x : ℚ) : x ≤ xs.foldl max x := by
  induction xs generalizing x with
  | nil => exact le_refl x
  | cons y ys ih => exact le_trans (le_max_left x y) (ih (max x y))

theorem foldl_max_mem_le {xs : List ℚ} {a : ℚ} (h : a ∈ xs) :
    ∀ x, a ≤ xs.foldl max x := by
  induction xs with
  | nil => cases h
  | cons y ys ih =>
    intro x
    rcases List.mem_cons.mp h with rfl | h2
    · exact le_trans (le_max_right x a) (foldl_max_init_le ys (max x a))
    · exact ih h2 (max x y)

/-- A present cell never exceeds the column maximum, which in particular
exists. -/
theorem seriesMax_bound {vals : List (Option ℚ)} {v : ℚ} (h : some v ∈ vals) :
    ∃ m, seriesMax vals = some m ∧ v ≤ m := by
  have hv : v ∈ vals.filterMap id := List.mem_filterMap.mpr ⟨some v, h, rfl⟩
  unfold seriesMax
  cases hfm : vals.filterMap id with
  | nil => rw [hfm] at hv; cases hv
  | cons x xs =>
    rw [hfm] at hv
    rcases List.mem_cons.mp hv with rfl | h2
    · exact ⟨xs.foldl max v, rfl, foldl_max_init_le xs v⟩
    · exact ⟨xs.foldl max x, rfl, foldl_max_mem_le h2 x⟩

theorem pyMax_self (a : Option ℚ) : pyMax a a = a := by
  cases a with
  | none => rfl
  | some x => simp [pyMax]

theorem pyMax_left_bound (x : ℚ) (b : Option ℚ) :
    ∃ M, pyMax (some x) b = some M ∧ x ≤ M := by
  cases b with
  | none => exact ⟨x, rfl, le_refl x⟩
  | some y =>
    by_cases h : x < y
    · exact ⟨y, by simp [pyMax, h], le_of_lt h⟩
    · exact ⟨x, by simp [pyMax, h], le_refl x⟩

/-- A row inside the eventual power selection. -/
def rowC7a : RawRow := ⟨"A", "DK", "PEM", some 100, some 4, none, none⟩

/-- A row whose stack power 9 exceeds the user-selected power maximum 5. -/
def rowC7b : RawRow := ⟨"B", "DK", "PEM", some 200, some 9, none, none⟩

/-- The stack figure the pipeline produces on `[rowC7a, rowC7b]` with both
companies selected. -/
def figC7 : Fig :=
  ⟨[procRow rowC7a, procRow rowC7b], ((-10 : ℚ), some 200), ((29/10 : ℚ), some 9)⟩

/-- C7 counterexample: the user narrows the power slider to `[4, 5]`, yet
the stack figure's y-axis upper hint is 9 — the maximum of the power columns
over the filtered data (lines 116-117) — not the user-selected
`power_range.max = 5`. -/
theorem c7_counterexample :
    powerSliderShown [rowC7a, rowC7b] ["A", "B"] ["DK"] (100, 200) = true
    ∧ powerBoundsUsed [rowC7a, rowC7b] ["A", "B"] ["DK"] (100, 200) (4, 5) = (some 4, some 5)
    ∧ fig_stack [rowC7a, rowC7b] ["A", "B"] ["DK"] (100, 200) = some figC7
    ∧ figC7.yRange.2 = some 9
    ∧ ((9 : ℚ) ≠ 5) := by
  decide

/-- C7 as amended: both figures carry the axis hints
`x = [-10, net_prod_max_all]` and `y = [2.9, power_max_all]`, where the two
upper hints are the maxima of the production column, respectively of the two
power columns, over the filtered data (not over the user-selected ranges);
the y floor 2.9 is a small positive constant; the x upper hint bounds every
plotted production value, and the stack figure's y upper hint bounds every
plotted stack power value. -/
theorem c7_axis_hints_data_derived (rows : List RawRow) (cos locs : List String)
    (pick : ℤ × ℤ) :
    (∀ f, fig_stack rows cos locs pick = some f →
      f.xRange.1 = -10 ∧ f.yRange.1 = 29/10 ∧ (0 : ℚ) < f.yRange.1
      ∧ f.xRange.2 = net_prod_max_all rows cos locs pick
      ∧ f.yRange.2 = power_max_all rows cos locs pick
      ∧ (∃ Mx, f.xRange.2 = some Mx
          ∧ ∀ r ∈ f.data, ∀ v, r.production_rate_max = some v → v ≤ Mx)
      ∧ (∃ My, f.yRange.2 = some My
          ∧ ∀ r ∈ f.data, ∀ v, r.stack_power_combined = some v → v ≤ My))
    ∧ (∀ f, fig_system rows cos locs pick = some f →
      f.xRange.1 = -10 ∧ f.yRange.1 = 29/10
      ∧ f.xRange.2 = net_prod_max_all rows cos locs pick
      ∧ f.yRange.2 = power_max_all rows cos locs pick
      ∧ (∃ Mx, f.xRange.2 = some Mx
          ∧ ∀ r ∈ f.data, ∀ v, r.production_rate_max = some v → v ≤ Mx)) := by
  constructor
  · intro f hf
    unfold fig_stack at hf
    split at hf
    case isTrue hguard =>
      injection hf with hf2
      subst hf2
      refine ⟨rfl, rfl, by norm_num, rfl, rfl, ?_, ?_⟩
      · -- some plotted row exists, and every plotted production value is
        -- bounded by the production maximum of the filtered set
        have hex : ∃ r0, r0 ∈ fig_stack_data rows cos locs pick := by
          simp only [Bool.or_eq_true, Bool.not_eq_true', List.isEmpty_eq_false] at hguard
          rcases hguard with hg | hg
          · obtain ⟨r0, hr0⟩ := List.exists_mem_of_ne_nil _ hg
            exact ⟨r0, List.mem_append.mpr (Or.inl hr0)⟩
          · obtain ⟨r0, hr0⟩ := List.exists_mem_of_ne_nil _ hg
            exact ⟨r0, List.mem_append.mpr (Or.inr hr0)⟩
        obtain ⟨r0, hr0⟩ := hex
        have hr0fin := (mem_fig_stack_data hr0).1
        obtain ⟨v0, hv0, _⟩ :=
          prod_bounded_of_mem_pre (mem_pre_of_mem_sel (mem_sel_of_mem_final hr0fin))
        obtain ⟨m, hm, _⟩ := seriesMax_bound
          (List.mem_map.mpr ⟨r0, hr0fin, hv0⟩ :
            some v0 ∈ (df_filtered_final rows cos locs pick).map (fun r => r.production_rate_max))
        refine ⟨m, ?_, ?_⟩
        · show net_prod_max_all rows cos locs pick = some m
          unfold net_prod_max_all
          rw [pyMax_self, hm]
        · intro r hr v hv
          have hmem : some v ∈ (df_filtered_final rows cos locs pick).map
              (fun r => r.production_rate_max) :=
            List.mem_map.mpr ⟨r, (mem_fig_stack_data hr).1, hv⟩
          obtain ⟨m2, hm2, hle2⟩ := seriesMax_bound hmem
          have : m2 = m := Option.some.inj (hm2.symm.trans hm)
          exact this ▸ hle2
      · -- the stack column of the filtered set has a maximum, and it bounds
        -- every plotted stack value through the python max at line 116
        have hex : ∃ r0, r0 ∈ fig_stack_data rows cos locs pick := by
          simp only [Bool.or_eq_true, Bool.not_eq_true', List.isEmpty_eq_false] at hguard
          rcases hguard with hg | hg
          · obtain ⟨r0, hr0⟩ := List.exists_mem_of_ne_nil _ hg
            exact ⟨r0, List.mem_append.mpr (Or.inl hr0)⟩
          · obtain ⟨r0, hr0⟩ := List.exists_mem_of_ne_nil _ hg
            exact ⟨r0, List.mem_append.mpr (Or.inr hr0)⟩
        obtain ⟨r0, hr0⟩ := hex
        obtain ⟨hr0fin, hr0stack⟩ := mem_fig_stack_data hr0
        obtain ⟨w0, hw0⟩ := Option.isSome_iff_exists.mp hr0stack
        obtain ⟨m1, hm1, _⟩ := seriesMax_bound
          (List.mem_map.mpr ⟨r0, hr0fin, hw0⟩ :
            some w0 ∈ (df_filtered_final rows cos locs pick).map (fun r => r.stack_power_combined))
        obtain ⟨My, hMy, hm1My⟩ := pyMax_left_bound m1
          (seriesMax ((df_filtered_final rows cos locs pick).map (fun r => r.system_power)))
        refine ⟨My, ?_, ?_⟩
        · show power_max_all rows cos locs pick = some My
          unfold power_max_all
          rw [hm1]
          exact hMy
        · intro r hr v hv
          have hmem : some v ∈ (df_filtered_final rows cos locs pick).map
              (fun r => r.stack_power_combined) :=
            List.mem_map.mpr ⟨r, (mem_fig_stack_data hr).1, hv⟩
          obtain ⟨m2, hm2, hle2⟩ := seriesMax_bound hmem
          have : m2 = m1 := Option.some.inj (hm2.symm.trans hm1)
          exact le_trans (this ▸ hle2) hm1My
    case isFalse => exact Option.noConfusion hf
  · intro f hf
    unfold fig_system at hf
    split at hf
    case isTrue hguard =>
      injection hf with hf2
      subst hf2
      refine ⟨rfl, rfl, rfl, rfl, ?_⟩
      have hex : ∃ r0, r0 ∈ fig_system_data rows cos locs pick := by
        simp only [Bool.or_eq_true, Bool.not_eq_true', List.isEmpty_eq_false] at hguard
        rcases hguard with hg | hg
        · obtain ⟨r0, hr0⟩ := List.exists_mem_of_ne_nil _ hg
          exact ⟨r0, List.mem_append.mpr (Or.inl hr0)⟩
        · obtain ⟨r0, hr0⟩ := List.exists_mem_of_ne_nil _ hg
          exact ⟨r0, List.mem_append.mpr (Or.inr hr0)⟩
      obtain ⟨r0, hr0⟩ := hex
      have hr0fin := (mem_fig_system_data hr0).1
      obtain ⟨v0, hv0, _⟩ :=
        prod_bounded_of_mem_pre (mem_pre_of_mem_sel (mem_sel_of_mem_final hr0fin))
      obtain ⟨m, hm, _⟩ := seriesMax_bound
        (List.mem_map.mpr ⟨r0, hr0fin, hv0⟩ :
          some v0 ∈ (df_filtered_final rows cos locs pick).map (fun r => r.production_rate_max))
      refine ⟨m, ?_, ?_⟩
      · show net_prod_max_all rows cos locs pick = some m
        unfold net_prod_max_all
        rw [pyMax_self, hm]
      · intro r hr v hv
        have hmem : some v ∈ (df_filtered_final rows cos locs pick).map
            (fun r => r.production_rate_max) :=
          List.mem_map.mpr ⟨r, (mem_fig_system_data hr).1, hv⟩
        obtain ⟨m2, hm2, hle2⟩ := seriesMax_bound hmem
        have : m2 = m := Option.some.inj (hm2.symm.trans hm)
        exact this ▸ hle2
    case isFalse => exact Option.noConfusion hf

theorem c7_axis_hints_data_derived_witness :
    figC7.xRange.1 = -10 ∧ figC7.yRange.1 = 29/10 ∧ (0 : ℚ) < figC7.yRange.1
    ∧ figC7.xRange.2 = net_prod_max_all [rowC7a, rowC7b] ["A", "B"] ["DK"] (100, 200)
    ∧ figC7.yRange.2 = power_max_all [rowC7a, rowC7b] ["A", "B"] ["DK"] (100, 200)
    ∧ (∃ Mx, figC7.xRange.2 = some Mx
        ∧ ∀ r ∈ figC7.data, ∀ v, r.production_rate_max = some v → v ≤ Mx)
    ∧ (∃ My, figC7.yRange.2 = some My
        ∧ ∀ r ∈ figC7.data, ∀ v, r.stack_power_combined = some v → v ≤ My) :=
  (c7_axis_hints_data_derived [rowC7a, rowC7b] ["A", "B"] ["DK"] (100, 200)).1
    figC7 (by decide)

theorem isEmpty_map {α β : Type} (f : α → β) (l : List α) :
    (l.map f).isEmpty = l.isEmpty := by
  cases l <;> rfl

/-- The selection-filtered dataframe is the per-row processing of the raw
rows that survive the same filters decided on the rounded raw cells. -/
theorem df_filtered_sel_eq (rows : List RawRow) (cos locs : List String) :
    df_filtered_sel rows cos locs = (rawSurvivorsSel rows cos locs).map procRow := by
  unfold df_filtered_sel applyUserFilters df_filtered_pre df_base rawSurvivorsSel
  rw [List.filter_map, List.filter_map, List.filter_map]
  rfl

/-- Same, after the production-range slider. -/
theorem df_filtered_final_eq (rows : List RawRow) (cos locs : List String)
    (pick : ℤ × ℤ) :
    df_filtered_final rows cos locs pick
      = (rawSurvivorsFinal rows cos locs pick).map procRow := by
  unfold df_filtered_final rawSurvivorsFinal
  rw [df_filtered_sel_eq, isEmpty_map]
  by_cases hA : (rawSurvivorsSel rows cos locs).isEmpty
  · simp [hA]
  · by_cases hB : sliderCond rows cos
    · simp only [hA, hB, Bool.false_eq_true, if_false, if_true]
      rw [List.filter_map]
      rfl
    · simp [hA, hB]

/-- C8: the slider bounds are bounds over the rounded values — the
production-slider bounds and the power bounds of lines 63-74 coincide with
the bounds recomputed directly from the raw cells after rounding (so for no
dataset can an unrounded raw value leak into a slider bound). -/
theorem c8_slider_bounds_over_rounded (rows : List RawRow) (cos locs : List String)
    (pick : ℤ × ℤ) :
    prodSliderBounds rows cos locs = specProdSliderBounds rows cos locs
    ∧ (power_min_b (df_filtered_final rows cos locs pick),
        power_max_b (df_filtered_final rows cos locs pick))
      = specPowerBounds rows cos locs pick := by
  constructor
  · unfold prodSliderBounds specProdSliderBounds
    rw [df_filtered_sel_eq]
    simp only [List.map_map]
    rfl
  · unfold power_min_b power_max_b specPowerBounds
    rw [df_filtered_final_eq]
    simp only [List.map_map]
    rfl

end ClaimTheorems




end Electrolyzer
